import Mathlib

/-!
Verification of the selection/pagination logic of the artwork table component
(`src/art-table/src/component/tableArt.tsx`).

The component keeps local state (current page index, a `Set` of selected record
identifiers, a pending bulk-select count, the fetched rows, the total record
count, an error message, a loading flag).  The pure logic of its handlers is
embedded below: `fetchData`'s request parameters and state update,
`onPageChange`, `onSelectionChange`, `handleCustomSelect`, the derived
`pageSelection` view, and the render-time choice between the error panel and
the table.  TypeScript `number` is modelled as `Int` (all values involved are
integers), a JS `Set<number>` as `Finset Int`, and absent/undefined JSON
fields as `Option`.
-/

namespace TableArt

/-- Row record type (`workTableProps` in `tableArt.tsx`). -/
structure workTableProps where
  id : Int
  title : String
  place_of_origin : String
  artist_display : String
  inscriptions : String
  date_start : Int
  date_end : Int
deriving DecidableEq

/-- The `pagination` object of the listing-endpoint JSON response;
`total?` is `none` when the `total` field is absent (`result.pagination?.total`). -/
structure Pagination where
  total? : Option Int
deriving DecidableEq

/-- JSON body of a listing-endpoint response.  `data?` is `none` when the
`data` field is absent or null (`result.data || []`); `pagination?` is `none`
when the `pagination` object is absent (`result.pagination?.total || 0`). -/
structure ApiResponse where
  data? : Option (List workTableProps)
  pagination? : Option Pagination
deriving DecidableEq

/-- Outcome of one `fetch` call: a transport exception (anything thrown inside
the `try` block, including a non-JSON body), or an HTTP response with its `ok`
flag and parsed JSON body. -/
inductive FetchOutcome where
  | transportError
  | httpResponse (ok : Bool) (body : ApiResponse)
deriving DecidableEq

/-- `true` exactly when `fetchData`'s catch branch runs: a transport exception,
or `!res.ok` (the code throws `new Error('API request failed')`). -/
def FetchOutcome.isFailure : FetchOutcome → Bool
  | .transportError => true
  | .httpResponse ok _ => !ok

/-- Component-local state of `TableArt` together with the state of its
`useTableArt` hook: `page`, `selectedIds`, `selectCount` from the component,
`data`, `totalRecords`, `error`, `loading` from the hook. -/
structure TableState where
  page : Nat
  selectedIds : Finset Int
  selectCount : Int
  data : List workTableProps
  totalRecords : Int
  error : Option String
  loading : Bool

/-- `const rowsPerPage = 12`. -/
def rowsPerPage : Nat := 12

/-- The query parameters of the single request `fetchData` issues for a page
index and limit: `page: (page + 1).toString(), limit: limit.toString()`.
Returned as a list to record that exactly one request is issued per call. -/
def fetchRequests (page limit : Nat) : List (String × String) :=
  [(toString (page + 1), toString limit)]

/-- State update performed by one run of `fetchData`, given the outcome of its
single `fetch`: `setLoading(true); setError(null)`, then on success
`setData(result.data || []); setTotalRecords(result.pagination?.total || 0)`,
on any failure `setError('Failed to fetch artworks')`, and finally
`setLoading(false)`. -/
def applyFetch (s : TableState) (o : FetchOutcome) : TableState :=
  let s1 : TableState := { s with loading := true, error := none }
  let s2 : TableState :=
    match o with
    | .transportError => { s1 with error := some "Failed to fetch artworks" }
    | .httpResponse ok body =>
        if !ok then { s1 with error := some "Failed to fetch artworks" }
        else
          { s1 with
              data := body.data?.getD []
              totalRecords := (body.pagination?.bind Pagination.total?).getD 0 }
  { s2 with loading := false }

/-- The `DataTablePageEvent` delivered by the table's `onPage` callback;
`page?` is `none` when its `page` field is undefined (`e.page ?? 0`). -/
structure DataTablePageEvent where
  page? : Option Nat
deriving DecidableEq

/-- `onPageChange`: `setPage(e.page ?? 0)`.  No other state field is touched. -/
def onPageChange (s : TableState) (e : DataTablePageEvent) : TableState :=
  { s with page := e.page?.getD 0 }

/-- One page navigation as observed by the component: the `onPage` handler runs,
then the `useEffect` re-runs `fetchData`, whose single fetch has some outcome. -/
def pageStep (s : TableState) (eo : DataTablePageEvent × FetchOutcome) : TableState :=
  applyFetch (onPageChange s eo.1) eo.2

/-- Body of the `rows.forEach` loop in `onSelectionChange`: for one visible row,
add its id to the accumulator if it appears (by id) in the checked list `value`,
otherwise delete it. -/
def selectionStep (value : List workTableProps) (next : Finset Int) (row : workTableProps) :
    Finset Int :=
  if value.any (fun v => v.id == row.id) then insert row.id next else next.erase row.id

/-- `onSelectionChange(value)`: starting from a copy of `selectedIds`, fold the
reconciliation step over the current page's `rows`. -/
def onSelectionChange (rows : List workTableProps) (selectedIds : Finset Int)
    (value : List workTableProps) : Finset Int :=
  rows.foldl (selectionStep value) selectedIds

/-- `handleCustomSelect`: no-op when `selectCount <= 0`; otherwise take the
first `selectCount` rows of the page not yet selected
(`rows.filter(r => !selectedIds.has(r.id)).slice(0, selectCount)`), insert
their ids, and reset the pending count to 0.  Returns the new
`(selectedIds, selectCount)` pair.  (The overlay-panel `hide()` call is UI
only and carries no state.) -/
def handleCustomSelect (rows : List workTableProps) (selectedIds : Finset Int)
    (selectCount : Int) : Finset Int × Int :=
  if selectCount ≤ 0 then (selectedIds, selectCount)
  else
    let available := rows.filter fun r => decide (r.id ∉ selectedIds)
    let toSelect := available.take selectCount.toNat
    (toSelect.foldl (fun next r => insert r.id next) selectedIds, 0)

/-- Derived view `pageSelection = rows.filter(row => selectedIds.has(row.id))`. -/
def pageSelection (rows : List workTableProps) (selectedIds : Finset Int) :
    List workTableProps :=
  rows.filter fun row => decide (row.id ∈ selectedIds)

/-- What `TableArt` renders at top level: the error panel (with its message)
when `error` is set, otherwise the table with the page's rows and the derived
selection. -/
inductive RenderedView where
  | errorPanel (message : String)
  | table (rows : List workTableProps) (selection : List workTableProps)
deriving DecidableEq

/-- Render choice of `TableArt`: `if (error) return <Card title="Error ...">`,
so the table is not rendered at all when `error` is set. -/
def render (s : TableState) : RenderedView :=
  match s.error with
  | some msg => .errorPanel msg
  | none => .table s.data (pageSelection s.data s.selectedIds)

/-- Initial component state: `useState(0)` for page, empty selection, pending
count 0, and the hook's initial `[]`, `0`, `null`, `false`. -/
def initialState : TableState :=
  { page := 0, selectedIds := ∅, selectCount := 0, data := [],
    totalRecords := 0, error := none, loading := false }

/-- The request issued after pressing Retry.  The Retry button runs
`window.location.reload()`, which reloads the document and remounts the
component with `initialState` (its page index is `useState(0)`, i.e. 0); the
mount-time `useEffect` then runs `fetchData` for that state. -/
def retryRequest : List (String × String) :=
  fetchRequests initialState.page rowsPerPage

/-- A sample artwork row. -/
def rowA : workTableProps :=
  { id := 1, title := "a", place_of_origin := "", artist_display := "",
    inscriptions := "", date_start := 0, date_end := 0 }

/-- A second sample artwork row. -/
def rowB : workTableProps :=
  { id := 2, title := "b", place_of_origin := "", artist_display := "",
    inscriptions := "", date_start := 0, date_end := 0 }

/-- A state in which a previous fetch succeeded: one row, total 1, no error. -/
def populatedState : TableState :=
  { page := 0, selectedIds := ∅, selectCount := 0, data := [rowA],
    totalRecords := 1, error := none, loading := false }

/-- A state in which the fetch for page index 3 failed. -/
def failedPage3State : TableState :=
  { page := 3, selectedIds := ∅, selectCount := 0, data := [],
    totalRecords := 0, error := some "Failed to fetch artworks",
    loading := false }

/-! ### Helper lemmas -/

/-- `fetchData` never touches the selection set. -/
theorem selectedIds_applyFetch (s : TableState) (o : FetchOutcome) :
    (applyFetch s o).selectedIds = s.selectedIds := by
  cases o with
  | transportError => rfl
  | httpResponse ok body => cases ok <;> rfl

/-- Membership after `onSelectionChange`: an id that occurs on the page ends up
in the set exactly when it is checked in `value`; any other id keeps its
previous membership. -/
theorem mem_onSelectionChange (rows value : List workTableProps) (sel : Finset Int)
    (id : Int) :
    (id ∈ onSelectionChange rows sel value ↔
      if rows.any fun r => r.id == id then (value.any fun v => v.id == id) = true
      else id ∈ sel) := by
  induction rows generalizing sel with
  | nil => simp [onSelectionChange]
  | cons r rest ih =>
    have h : onSelectionChange (r :: rest) sel value
        = onSelectionChange rest (selectionStep value sel r) value := rfl
    rw [h, ih]
    simp only [List.any_cons]
    by_cases hid : r.id = id
    · subst hid
      simp only [beq_self_eq_true, Bool.true_or, if_true]
      by_cases hrest : (rest.any fun x => x.id == r.id) = true
      · simp [hrest]
      · simp only [Bool.not_eq_true] at hrest
        simp only [hrest, Bool.false_eq_true, if_false]
        unfold selectionStep
        by_cases hv : (value.any fun v => v.id == r.id) = true
        · simp [hv]
        · simp [hv]
    · have hb : (r.id == id) = false := beq_eq_false_iff_ne.mpr hid
      simp only [hb, Bool.false_or]
      have hstep : id ∈ selectionStep value sel r ↔ id ∈ sel := by
        unfold selectionStep
        by_cases hv : (value.any fun v => v.id == r.id) = true
        · simp [hv, Finset.mem_insert, Ne.symm hid]
        · simp [hv, Finset.mem_erase, Ne.symm hid]
      by_cases hrest : (rest.any fun x => x.id == id) = true
      · simp [hrest]
      · simp only [Bool.not_eq_true] at hrest
        simp [hrest, hstep]

/-- Folding `insert` of row ids over a list equals union with the ids' set. -/
theorem foldl_insert_eq (l : List workTableProps) (s : Finset Int) :
    l.foldl (fun next r => insert r.id next) s = s ∪ (l.map workTableProps.id).toFinset := by
  induction l generalizing s with
  | nil => simp
  | cons r t ih =>
    simp only [List.foldl_cons, ih, List.map_cons, List.toFinset_cons]
    rw [Finset.insert_union, Finset.union_insert]

/-- Closed form of `handleCustomSelect` for a positive count: the new selection
set is the old one united with the ids of the first `count` unselected rows,
and the pending count is reset to 0. -/
theorem handleCustomSelect_pos (rows : List workTableProps) (sel : Finset Int) (count : Int)
    (h : 0 < count) :
    handleCustomSelect rows sel count =
      (sel ∪ (((rows.filter fun r => decide (r.id ∉ sel)).take count.toNat).map
          workTableProps.id).toFinset, 0) := by
  have h' : ¬ count ≤ 0 := not_le.mpr h
  simp only [handleCustomSelect, h', if_false]
  rw [foldl_insert_eq]

/-! ### Claim theorems -/

/-- Claim C1: `onSelectionChange` makes each visible row's id a member exactly
when that row appears in the checked list, leaves every id not on the current
page at its previous membership, and with an empty checked list removes exactly
the page's ids and nothing else. -/
theorem onSelectionChange_reconciles (rows value : List workTableProps) (sel : Finset Int) :
    (∀ row ∈ rows, (row.id ∈ onSelectionChange rows sel value ↔ ∃ v ∈ value, v.id = row.id))
    ∧ (∀ id : Int, (∀ row ∈ rows, row.id ≠ id) →
        (id ∈ onSelectionChange rows sel value ↔ id ∈ sel))
    ∧ (∀ id : Int, (id ∈ onSelectionChange rows sel [] ↔
        id ∈ sel ∧ ∀ row ∈ rows, row.id ≠ id)) := by
  refine ⟨?_, ?_, ?_⟩
  · intro row hrow
    rw [mem_onSelectionChange]
    have hany : (rows.any fun r => r.id == row.id) = true :=
      List.any_eq_true.mpr ⟨row, hrow, by simp⟩
    simp [hany, List.any_eq_true]
  · intro id hid
    rw [mem_onSelectionChange]
    have hany : (rows.any fun r => r.id == id) = false := by
      rw [List.any_eq_false]
      intro r hr
      simpa using hid r hr
    simp [hany]
  · intro id
    rw [mem_onSelectionChange]
    by_cases hany : (rows.any fun r => r.id == id) = true
    · obtain ⟨r, hr, hbeq⟩ := List.any_eq_true.mp hany
      have hrid : r.id = id := by simpa using hbeq
      simp only [hany, if_true, List.any_nil, Bool.false_eq_true]
      constructor
      · intro hfalse; exact absurd hfalse (by simp)
      · intro hc; exact absurd hrid (hc.2 r hr)
    · simp only [Bool.not_eq_true] at hany
      have hall : ∀ row ∈ rows, row.id ≠ id := by
        intro r hr
        have := List.any_eq_false.mp hany r hr
        simpa using this
      rw [if_neg (by simp [hany])]
      exact ⟨fun h => ⟨h, hall⟩, fun h => h.1⟩

/-- Witness for C1 at a concrete input: with rows `[rowA, rowB]` (ids 1, 2) and
previous selection `{5}`, id 5 is not on the page, so its membership is
unchanged by any toggle. -/
theorem onSelectionChange_reconciles_witness :
    ((5 : Int) ∈ onSelectionChange [rowA, rowB] {5} [] ↔ (5 : Int) ∈ ({5} : Finset Int)) :=
  (onSelectionChange_reconciles [rowA, rowB] [] {5}).2.1 5 (by decide)

/-- Claim C2: neither `onPageChange` nor the fetch it triggers ever changes the
selection set, so any sequence of page navigations (each with its fetch
outcome) leaves `selectedIds` unchanged. -/
theorem pageChange_preserves_selectedIds (s : TableState)
    (steps : List (DataTablePageEvent × FetchOutcome)) :
    (∀ e : DataTablePageEvent, (onPageChange s e).selectedIds = s.selectedIds)
    ∧ (steps.foldl pageStep s).selectedIds = s.selectedIds := by
  constructor
  · intro e; rfl
  · induction steps generalizing s with
    | nil => rfl
    | cons p rest ih =>
      rw [List.foldl_cons, ih]
      show (applyFetch (onPageChange s p.1) p.2).selectedIds = s.selectedIds
      rw [selectedIds_applyFetch]
      rfl

/-- Claim C8: a row is in the derived `pageSelection` view exactly when it is on
the current page and its id is in the selection set. -/
theorem pageSelection_eq_inter (rows : List workTableProps) (sel : Finset Int)
    (r : workTableProps) :
    r ∈ pageSelection rows sel ↔ r ∈ rows ∧ r.id ∈ sel := by
  simp [pageSelection, List.mem_filter]

/-- Claim C3: for a positive count not exceeding the number of unselected rows
on the page, `handleCustomSelect` adds exactly the ids of the first `count`
unselected rows (in display order) and resets the pending count to 0; for
count ≤ 0 it changes neither the selection set nor the pending count. -/
theorem handleCustomSelect_spec (rows : List workTableProps) (sel : Finset Int)
    (count : Int) :
    (0 < count → count ≤ ((rows.filter fun r => decide (r.id ∉ sel)).length : Int) →
      handleCustomSelect rows sel count =
        (sel ∪ (((rows.filter fun r => decide (r.id ∉ sel)).take count.toNat).map
            workTableProps.id).toFinset, 0))
    ∧ (count ≤ 0 → handleCustomSelect rows sel count = (sel, count)) := by
  constructor
  · intro h _
    exact handleCustomSelect_pos rows sel count h
  · intro h
    simp [handleCustomSelect, h]

/-- Witness for C3: selecting 1 row from `[rowA, rowB]` with empty selection. -/
theorem handleCustomSelect_spec_witness :
    handleCustomSelect [rowA, rowB] ∅ 1 =
      (∅ ∪ ((([rowA, rowB].filter fun r => decide (r.id ∉ (∅ : Finset Int))).take
          (1 : Int).toNat).map workTableProps.id).toFinset, 0) :=
  (handleCustomSelect_spec [rowA, rowB] ∅ 1).1 (by decide) (by decide)

/-- Claim C4: when the requested count exceeds the number of unselected rows on
the page, `handleCustomSelect` is clamped — the selection set gains at most as
many new ids as there are unselected rows. -/
theorem handleCustomSelect_clamped (rows : List workTableProps) (sel : Finset Int)
    (count : Int)
    (h : ((rows.filter fun r => decide (r.id ∉ sel)).length : Int) < count) :
    ((handleCustomSelect rows sel count).1 \ sel).card ≤
      (rows.filter fun r => decide (r.id ∉ sel)).length := by
  have hpos : 0 < count := lt_of_le_of_lt (Int.natCast_nonneg _) h
  rw [handleCustomSelect_pos rows sel count hpos]
  have hsub : (sel ∪ (((rows.filter fun r => decide (r.id ∉ sel)).take count.toNat).map
      workTableProps.id).toFinset) \ sel ⊆
      (((rows.filter fun r => decide (r.id ∉ sel)).take count.toNat).map
        workTableProps.id).toFinset := by
    intro x hx
    rcases Finset.mem_sdiff.mp hx with ⟨hx1, hx2⟩
    rcases Finset.mem_union.mp hx1 with h1 | h1
    · exact absurd h1 hx2
    · exact h1
  calc ((sel ∪ (((rows.filter fun r => decide (r.id ∉ sel)).take count.toNat).map
          workTableProps.id).toFinset) \ sel).card
      ≤ ((((rows.filter fun r => decide (r.id ∉ sel)).take count.toNat).map
          workTableProps.id).toFinset).card := Finset.card_le_card hsub
    _ ≤ (((rows.filter fun r => decide (r.id ∉ sel)).take count.toNat).map
          workTableProps.id).length := List.toFinset_card_le _
    _ = ((rows.filter fun r => decide (r.id ∉ sel)).take count.toNat).length :=
          List.length_map _ _
    _ ≤ (rows.filter fun r => decide (r.id ∉ sel)).length := by
          rw [List.length_take]; exact min_le_right _ _

/-- Witness for C4: on `[rowA]` with `rowA` already selected there are 0
unselected rows, and a bulk select of 5 adds nothing. -/
theorem handleCustomSelect_clamped_witness :
    (((handleCustomSelect [rowA] {1} 5).1 \ {1}).card ≤
      ([rowA].filter fun r => decide (r.id ∉ ({1} : Finset Int))).length) :=
  handleCustomSelect_clamped [rowA] {1} 5 (by decide)

/-- Claim C9: `handleCustomSelect` is monotone — the old selection set is a
subset of the new one, and every newly added id is the id of some row of the
current page. -/
theorem handleCustomSelect_monotone (rows : List workTableProps) (sel : Finset Int)
    (count : Int) :
    sel ⊆ (handleCustomSelect rows sel count).1
    ∧ ∀ id ∈ (handleCustomSelect rows sel count).1, id ∉ sel →
        ∃ r ∈ rows, r.id = id := by
  by_cases h : count ≤ 0
  · have hres : handleCustomSelect rows sel count = (sel, count) := by
      simp [handleCustomSelect, h]
    rw [hres]
    exact ⟨Finset.Subset.refl sel, fun id hid hnot => absurd hid hnot⟩
  · push_neg at h
    rw [handleCustomSelect_pos rows sel count h]
    constructor
    · exact Finset.subset_union_left
    · intro id hid hnot
      rcases Finset.mem_union.mp hid with h1 | h1
      · exact absurd h1 hnot
      · obtain ⟨r, hr, hrid⟩ := List.mem_map.mp (List.mem_toFinset.mp h1)
        refine ⟨r, ?_, hrid⟩
        exact List.mem_of_mem_filter (List.take_subset _ _ hr)

/-- Witness for C9: bulk-selecting 5 on `[rowA, rowB]` with `{1}` selected adds
id 2, which is the id of `rowB`, a row of the page. -/
theorem handleCustomSelect_monotone_witness :
    ∃ r ∈ [rowA, rowB], workTableProps.id r = 2 :=
  (handleCustomSelect_monotone [rowA, rowB] {1} 5).2 2 (by decide) (by decide)

/-- Counterexample to claim C5 as stated: from a state whose previous fetch
succeeded with one row, a failing fetch sets the error message but does NOT
empty the record list (the catch branch never calls `setData`), so a populated
error message and a populated record list coexist. -/
theorem applyFetch_failure_keeps_data :
    (applyFetch populatedState FetchOutcome.transportError).error =
        some "Failed to fetch artworks"
    ∧ (applyFetch populatedState FetchOutcome.transportError).data ≠ [] :=
  ⟨rfl, by decide⟩

/-- Claim C5 amended: on any transport or non-success-status failure,
`fetchData` sets the error message and leaves BOTH the record list and the
total record count at their last known values. -/
theorem applyFetch_failure_spec (s : TableState) (o : FetchOutcome)
    (h : o.isFailure = true) :
    (applyFetch s o).error = some "Failed to fetch artworks"
    ∧ (applyFetch s o).data = s.data
    ∧ (applyFetch s o).totalRecords = s.totalRecords := by
  cases o with
  | transportError => exact ⟨rfl, rfl, rfl⟩
  | httpResponse ok body =>
    cases ok with
    | false => exact ⟨rfl, rfl, rfl⟩
    | true => simp [FetchOutcome.isFailure] at h

/-- Witness for amended C5 at a concrete populated state and transport error. -/
theorem applyFetch_failure_spec_witness :
    (applyFetch populatedState FetchOutcome.transportError).error =
        some "Failed to fetch artworks"
    ∧ (applyFetch populatedState FetchOutcome.transportError).data = populatedState.data
    ∧ (applyFetch populatedState FetchOutcome.transportError).totalRecords =
        populatedState.totalRecords :=
  applyFetch_failure_spec populatedState FetchOutcome.transportError rfl

/-- Counterexample to claim C6 as stated: with the fetch for page index 3
failed, the error panel is shown, but the retry button's full reload restarts
at the initial page index 0, so the re-issued request is for page 1 (1-based),
not the failing page/size pair (page 4, limit 12). -/
theorem retry_not_same_page :
    render failedPage3State = RenderedView.errorPanel "Failed to fetch artworks"
    ∧ retryRequest ≠ fetchRequests failedPage3State.page rowsPerPage :=
  ⟨rfl, by decide⟩

/-- Claim C6 amended: whenever an error is set, the view renders the error
panel instead of the table, and the retry action (a full reload) re-issues a
request with the fixed page size but for the initial page index 0 — which
matches the failing page only when the failure occurred on page 0. -/
theorem errorPanel_and_retry (s : TableState) (msg : String) (h : s.error = some msg) :
    render s = RenderedView.errorPanel msg
    ∧ retryRequest = fetchRequests 0 rowsPerPage := by
  refine ⟨?_, rfl⟩
  simp [render, h]

/-- Witness for amended C6 at the concrete failed state for page index 3. -/
theorem errorPanel_and_retry_witness :
    render failedPage3State = RenderedView.errorPanel "Failed to fetch artworks"
    ∧ retryRequest = fetchRequests 0 rowsPerPage :=
  errorPanel_and_retry failedPage3State "Failed to fetch artworks" rfl

/-- Claim C7: for every page index P and positive page size S, `fetchData`
issues exactly one request, whose query parameters are the 1-based page number
P+1 and limit S. -/
theorem fetchRequests_spec (P S : Nat) (_h : 0 < S) :
    fetchRequests P S = [(toString (P + 1), toString S)]
    ∧ (fetchRequests P S).length = 1 :=
  ⟨rfl, rfl⟩

/-- Witness for C7 at page index 3 and the component's page size 12. -/
theorem fetchRequests_spec_witness :
    fetchRequests 3 rowsPerPage = [(toString (3 + 1), toString rowsPerPage)]
    ∧ (fetchRequests 3 rowsPerPage).length = 1 :=
  fetchRequests_spec 3 rowsPerPage (by decide)

/-- Claim C10: on a successful fetch with missing JSON fields, `fetchData`
substitutes defaults — absent/null `data` yields an empty record list, an
absent `pagination` object or absent `total` field yields a total of 0 — and no
error message is set. -/
theorem applyFetch_defaults (s : TableState) (body : ApiResponse) :
    (body.data? = none →
        (applyFetch s (FetchOutcome.httpResponse true body)).data = [])
    ∧ ((body.pagination? = none ∨ ∃ p, body.pagination? = some p ∧ p.total? = none) →
        (applyFetch s (FetchOutcome.httpResponse true body)).totalRecords = 0)
    ∧ (applyFetch s (FetchOutcome.httpResponse true body)).error = none := by
  refine ⟨?_, ?_, rfl⟩
  · intro h
    simp [applyFetch, h]
  · intro h
    rcases h with h | ⟨p, hp, hpt⟩
    · simp [applyFetch, h]
    · simp [applyFetch, hp, hpt]

/-- Witness for C10: a success response with both `data` and `pagination`
absent yields the empty list and total 0. -/
theorem applyFetch_defaults_witness :
    (applyFetch initialState (FetchOutcome.httpResponse true ⟨none, none⟩)).data = []
    ∧ (applyFetch initialState (FetchOutcome.httpResponse true ⟨none, none⟩)).totalRecords
        = 0 :=
  ⟨(applyFetch_defaults initialState ⟨none, none⟩).1 rfl,
   (applyFetch_defaults initialState ⟨none, none⟩).2.1 (Or.inl rfl)⟩

end TableArt
